import Mathlib

/-!
Shallow embedding of `src/exercise-app/src/components/ExerciseFormCorrector.jsx`
(the single React component of the repository).

The component state (`useState` hooks and the `videoUrlRef` ref cell) becomes an
explicit `State` record.  Event handlers and the async `analyzeForm` become pure
state-transition functions.  Browser effects are instrumented with counters kept
inside `State`:
  * `created` / `revoked` count `URL.createObjectURL` / `URL.revokeObjectURL`
    calls (object-URL handles are identified by their creation index);
  * `httpSent` counts `axios.post` calls;
  * `alertsShown` counts `alert(...)` calls.
JS numbers that hold byte counters and percentages are modelled as `Nat`
(exact arithmetic), scores as `Int`.
-/

namespace ExerciseApp

/-- A selected file as the handlers see it: `file.type` is the declared media
type string (named `fileType` because `type` is reserved in Lean). -/
structure File where
  name : String
  fileType : String
  deriving Repr, DecidableEq

/-- One correction entry of the analysis payload
(`analysis.corrections_needed[i]` in the JSX). -/
structure Correction where
  issue : String
  severity : String
  feedback : String
  correction_instruction : String
  deriving Repr, DecidableEq

/-- One `detailed_breakdown` value: `{ score, feedback }`. -/
structure AspectData where
  score : Int
  feedback : String
  deriving Repr, DecidableEq

/-- The parsed response body (`response.data`).  Fields the JSX treats as
optional are `Option`s; `detailed_breakdown` is a key-ordered association list
(`Object.entries` iterates string keys in insertion order). -/
structure AnalysisResult where
  overall_score : Int
  whats_right : Option (List String)
  corrections_needed : Option (List Correction)
  detailed_breakdown : Option (List (String × AspectData))
  improvement_tips : Option (List String)
  overlay_url : Option String
  deriving Repr, DecidableEq

/-- Outcome of the awaited `axios.post`: a parsed body, or any failure
(network error, non-2xx status, malformed body) landing in the `catch`. -/
inductive Outcome where
  | success (r : AnalysisResult)
  | failure
  deriving Repr, DecidableEq

/-- Component state: the six `useState` hooks, the `videoUrlRef` ref cell
(holding the id of the live object URL, if any), and effect counters. -/
structure State where
  videoFile : Option File
  exerciseType : String
  analysis : Option AnalysisResult
  loading : Bool
  uploadProgress : Nat
  isDragging : Bool
  videoUrlRef : Option Nat
  created : Nat
  revoked : Nat
  httpSent : Nat
  alertsShown : Nat
  deriving Repr, DecidableEq

/-- Initial hook values: `useState(null)`, `useState("squat")`, `useState(null)`,
`useState(false)`, `useState(0)`, `useState(false)`, `useRef(null)`. -/
def initState : State :=
  { videoFile := none
    exerciseType := "squat"
    analysis := none
    loading := false
    uploadProgress := 0
    isDragging := false
    videoUrlRef := none
    created := 0
    revoked := 0
    httpSent := 0
    alertsShown := 0 }

/-- JS `s.startsWith(pre)` (used as `file.type.startsWith('video/')` at
line 45), modelled on the character sequences of the two strings. -/
def strStartsWith (s pre : String) : Bool :=
  pre.data.isPrefixOf s.data

/-- `URL.createObjectURL(file)`: returns a fresh handle (its creation index)
and bumps the creation counter. -/
def createObjectURL (s : State) : Nat × State :=
  (s.created, { s with created := s.created + 1 })

/-- `URL.revokeObjectURL(url)`: bumps the revocation counter. -/
def revokeObjectURL (s : State) : State :=
  { s with revoked := s.revoked + 1 }

/-- `handleDragEnter` (lines 22-26): `setIsDragging(true)`. -/
def handleDragEnter (s : State) : State :=
  { s with isDragging := true }

/-- `handleDragLeave` (lines 28-32): `setIsDragging(false)`. -/
def handleDragLeave (s : State) : State :=
  { s with isDragging := false }

/-- `handleDrop` (lines 39-63).  `f` is `e.dataTransfer.files[0]` (possibly
absent).  Sets `isDragging` false; when a file is present and its declared type
starts with `video/`: stores it, revokes the previous object URL if any, and
creates and stores a new preview URL.  Otherwise nothing else happens. -/
def handleDrop (f : Option File) (s0 : State) : State :=
  let s := { s0 with isDragging := false }
  match f with
  | some file =>
      if strStartsWith file.fileType ("video/") then
        let s := { s with videoFile := some file }
        let s := match s.videoUrlRef with
          | some _ => revokeObjectURL s
          | none => s
        let p := createObjectURL s
        { p.2 with videoUrlRef := some p.1 }
      else s
  | none => s

/-- `handleFileSelect` (lines 65-85).  `f` is `event.target.files[0]`.  The
picker path performs no media-type check (the `accept` attribute is advisory):
any present file is stored, the previous object URL revoked, a new one created. -/
def handleFileSelect (f : Option File) (s : State) : State :=
  match f with
  | some file =>
      let s := { s with videoFile := some file }
      let s := match s.videoUrlRef with
        | some _ => revokeObjectURL s
        | none => s
      let p := createObjectURL s
      { p.2 with videoUrlRef := some p.1 }
  | none => s

/-- The `React.useEffect` on `[videoFile]` (lines 152-165): when a file is
selected, revokes the previous object URL and creates a fresh one. -/
def videoFileEffect (s : State) : State :=
  match s.videoFile with
  | some _ =>
      let s := match s.videoUrlRef with
        | some _ => revokeObjectURL s
        | none => s
      let p := createObjectURL s
      { p.2 with videoUrlRef := some p.1 }
  | none => s

/-- The unmount cleanup `React.useEffect` (lines 144-150): revokes the live
object URL if any; the ref cell is discarded with the component. -/
def unmountCleanup (s : State) : State :=
  match s.videoUrlRef with
  | some _ => { revokeObjectURL s with videoUrlRef := none }
  | none => s

/-- `Math.round(num / den)` for non-negative JS numbers and `den > 0`:
round half up, i.e. `⌊(num + den/2) / den⌋ = ⌊(2*num + den) / (2*den)⌋`. -/
def jsRound (num den : Nat) : Nat :=
  (2 * num + den) / (2 * den)

/-- The `onUploadProgress` callback (lines 105-110):
`setUploadProgress(Math.round(loaded * 100 / total))`. -/
def onUploadProgress (loaded total : Nat) (s : State) : State :=
  { s with uploadProgress := jsRound (loaded * 100) total }

/-- The synchronous prefix of `analyzeForm` once the guard has passed
(lines 90-96 and the `axios.post` call): `setLoading(true)`,
`setUploadProgress(0)`, and one HTTP POST issued. -/
def analyzeFormStart (s : State) : State :=
  { s with loading := true, uploadProgress := 0, httpSent := s.httpSent + 1 }

/-- The continuation of `analyzeForm` once the awaited request settles
(lines 113-121): on success `setAnalysis(response.data)`; on failure one
`alert(...)`; in both cases the `finally` block runs `setLoading(false)` and
`setUploadProgress(0)`.  No retry is issued. -/
def analyzeFormSettle (s : State) (o : Outcome) : State :=
  match o with
  | .success r =>
      { s with analysis := some r, loading := false, uploadProgress := 0 }
  | .failure =>
      { s with alertsShown := s.alertsShown + 1, loading := false,
               uploadProgress := 0 }

/-- `analyzeForm` (lines 87-122) viewed from invocation to settlement:
`if (!videoFile) return;` then start, transmission, settlement. -/
def analyzeForm (s : State) (o : Outcome) : State :=
  match s.videoFile with
  | none => s
  | some _ => analyzeFormSettle (analyzeFormStart s) o

/-- `getScoreColor` (lines 124-128). -/
def getScoreColor (score : Int) : String :=
  if score ≥ 80 then "text-green-600"
  else if score ≥ 60 then "text-yellow-600"
  else "text-red-600"

/-- `getSeverityColor` (lines 130-141). -/
def getSeverityColor (severity : String) : String :=
  if severity = "critical" then "bg-red-100 border-red-400 text-red-700"
  else if severity = "warning" then "bg-yellow-100 border-yellow-400 text-yellow-700"
  else if severity = "info" then "bg-blue-100 border-blue-400 text-blue-700"
  else "bg-gray-100 border-gray-400 text-gray-700"

/-- The severity badge ternary (lines 364-370): `critical` and `warning` get
their own badge classes, everything else falls through to the blue info badge. -/
def severityBadgeClass (severity : String) : String :=
  if severity = "critical" then "bg-red-200 text-red-800"
  else if severity = "warning" then "bg-yellow-200 text-yellow-800"
  else "bg-blue-200 text-blue-800"

/-- One rendered correction card (lines 354-384). -/
structure RenderedCorrection where
  issue : String
  containerClass : String
  badgeClass : String
  badgeText : String
  feedback : String
  instruction : String
  deriving Repr, DecidableEq

/-- One rendered detailed-breakdown card (lines 397-414). -/
structure RenderedAspect where
  aspect : String
  scoreClass : String
  score : Int
  feedback : String
  deriving Repr, DecidableEq

/-- The rendered results block (lines 309-453): each `Option` is a section
that the JSX renders (`some`) or suppresses (`none`). -/
structure RenderedReport where
  overallScore : Int
  overallScoreClass : String
  whatsRightSection : Option (List String)
  correctionsSection : Option (List RenderedCorrection)
  breakdownSection : Option (List RenderedAspect)
  tipsSection : Option (List String)
  overlaySection : Option String
  deriving Repr, DecidableEq

/-- Rendering of one correction (lines 354-384). -/
def renderCorrection (c : Correction) : RenderedCorrection :=
  { issue := c.issue
    containerClass := getSeverityColor c.severity
    badgeClass := severityBadgeClass c.severity
    badgeText := c.severity
    feedback := c.feedback
    instruction := c.correction_instruction }

/-- Rendering of one breakdown entry (lines 397-414). -/
def renderAspect (e : String × AspectData) : RenderedAspect :=
  { aspect := e.1
    scoreClass := getScoreColor e.2.score
    score := e.2.score
    feedback := e.2.feedback }

/-- The results JSX (lines 309-453) as a view model.  Guards are the JS
truthiness tests of the source: `whats_right && whats_right.length > 0`,
`corrections_needed && corrections_needed.length > 0`, `detailed_breakdown`
(truthiness only — an empty object is truthy), `improvement_tips &&
improvement_tips.length > 0`, `overlay_url` (empty string is falsy). -/
def renderReport (r : AnalysisResult) : RenderedReport :=
  { overallScore := r.overall_score
    overallScoreClass := getScoreColor r.overall_score
    whatsRightSection :=
      match r.whats_right with
      | some l => if l.length > 0 then some l else none
      | none => none
    correctionsSection :=
      match r.corrections_needed with
      | some l => if l.length > 0 then some (l.map renderCorrection) else none
      | none => none
    breakdownSection :=
      match r.detailed_breakdown with
      | some m => some (m.map renderAspect)
      | none => none
    tipsSection :=
      match r.improvement_tips with
      | some l => if l.length > 0 then some l else none
      | none => none
    overlaySection :=
      match r.overlay_url with
      | some u => if u = "" then none
                  else some (String.append ("http://localhost:5000") u)
      | none => none }

/-- The whole results block: rendered only when `analysis` is set (line 309). -/
def renderView (s : State) : Option RenderedReport :=
  s.analysis.map renderReport

/-- Events that can reach the component, for whole-lifecycle statements. -/
inductive Op where
  | dragEnter
  | dragLeave
  | dragOver
  | drop (f : Option File)
  | pick (f : Option File)
  | previewEffect
  | settle (o : Outcome)
  | progress (loaded total : Nat)
  | unmount
  deriving Repr

/-- Dispatch of one event to its handler (`handleDragOver` only calls
`preventDefault`, so it is the identity on state). -/
def step (s : State) : Op → State
  | .dragEnter => handleDragEnter s
  | .dragLeave => handleDragLeave s
  | .dragOver => s
  | .drop f => handleDrop f s
  | .pick f => handleFileSelect f s
  | .previewEffect => videoFileEffect s
  | .settle o => analyzeForm s o
  | .progress loaded total => onUploadProgress loaded total s
  | .unmount => unmountCleanup s

/-- Running a sequence of events from the freshly mounted component. -/
def run (ops : List Op) : State :=
  ops.foldl step initState

/-! ### Concrete data used by witnesses and counterexamples -/

/-- A file whose declared media type passes the drop check. -/
def demoFile : File :=
  { name := "squat.mp4", fileType := "video/mp4" }

/-- A file whose declared media type fails the drop check. -/
def pngFile : File :=
  { name := "pic.png", fileType := "image/png" }

/-- A state with a video selected, as after a successful selection. -/
def demoLoadedState : State :=
  { initState with videoFile := some demoFile }

/-- The warning correction of the spec's end-to-end example. -/
def demoCorrection : Correction :=
  { issue := "elbow flare"
    severity := "warning"
    feedback := "elbows too wide"
    correction_instruction := "tuck elbows to 45 degrees" }

/-- A correction with an unrecognized severity. -/
def bananaCorrection : Correction :=
  { issue := "strange"
    severity := "banana"
    feedback := "odd"
    correction_instruction := "none needed" }

/-- The spec's end-to-end success payload: medium score, one strength, one
warning correction, an empty detailed-breakdown mapping, one tip. -/
def demoResult : AnalysisResult :=
  { overall_score := 72
    whats_right := some ["good depth"]
    corrections_needed := some [demoCorrection]
    detailed_breakdown := some []
    improvement_tips := some ["slow the descent"]
    overlay_url := none }

/-! ### Theorems -/

/-- C5: `getScoreColor` maps a score to the high band when `score ≥ 80`
(boundary inclusive), to the medium band when `60 ≤ score < 80`, and to the
low band when `score < 60`; the rendering applies this same function to
`overall_score` and to every `detailed_breakdown` aspect score. -/
theorem getScoreColor_bands :
    (∀ score : Int,
      (80 ≤ score → getScoreColor score = "text-green-600") ∧
      (60 ≤ score → score < 80 → getScoreColor score = "text-yellow-600") ∧
      (score < 60 → getScoreColor score = "text-red-600")) ∧
    (∀ r : AnalysisResult,
      (renderReport r).overallScoreClass = getScoreColor r.overall_score) ∧
    (∀ e : String × AspectData,
      (renderAspect e).scoreClass = getScoreColor e.2.score) := by
  refine ⟨fun score => ⟨fun h => ?_, fun h1 h2 => ?_, fun h => ?_⟩,
    fun r => rfl, fun e => rfl⟩
  · unfold getScoreColor
    rw [if_pos (by omega)]
  · unfold getScoreColor
    rw [if_neg (by omega), if_pos (by omega)]
  · unfold getScoreColor
    rw [if_neg (by omega), if_neg (by omega)]

/-- Witness for C5 at the spec's sample scores 85, 60, 59 and 80. -/
theorem getScoreColor_bands_witness :
    getScoreColor 85 = "text-green-600" ∧
    getScoreColor 60 = "text-yellow-600" ∧
    getScoreColor 59 = "text-red-600" ∧
    getScoreColor 80 = "text-green-600" :=
  ⟨(getScoreColor_bands.1 85).1 (by decide),
   (getScoreColor_bands.1 60).2.1 (by decide) (by decide),
   (getScoreColor_bands.1 59).2.2 (by decide),
   (getScoreColor_bands.1 80).1 (by decide)⟩

/-- C6: `getSeverityColor` maps the literals `critical`, `warning` and `info`
to their classes and every other string to the neutral default class; it is a
total function, so it cannot throw. -/
theorem getSeverityColor_total :
    getSeverityColor "critical" = "bg-red-100 border-red-400 text-red-700" ∧
    getSeverityColor "warning" = "bg-yellow-100 border-yellow-400 text-yellow-700" ∧
    getSeverityColor "info" = "bg-blue-100 border-blue-400 text-blue-700" ∧
    (∀ s : String, s ≠ "critical" → s ≠ "warning" → s ≠ "info" →
      getSeverityColor s = "bg-gray-100 border-gray-400 text-gray-700") := by
  refine ⟨by decide, by decide, by decide, fun s h1 h2 h3 => ?_⟩
  simp [getSeverityColor, h1, h2, h3]

/-- Witness for C6 at the unrecognized severity of the spec's example. -/
theorem getSeverityColor_total_witness :
    getSeverityColor "banana" = "bg-gray-100 border-gray-400 text-gray-700" :=
  getSeverityColor_total.2.2.2 "banana" (by decide) (by decide) (by decide)

/-- C8: dropping a file whose declared media type does not start with
`video/` is a silent soft rejection: the selection, the preview handle and
the handle counters are unchanged, the stored result, the loading flag and
the progress value are unchanged, and no request or alert is issued. -/
theorem handleDrop_rejects_non_video (s : State) (f : File)
    (h : ¬ strStartsWith f.fileType ("video/")) :
    (handleDrop (some f) s).videoFile = s.videoFile ∧
    (handleDrop (some f) s).videoUrlRef = s.videoUrlRef ∧
    (handleDrop (some f) s).created = s.created ∧
    (handleDrop (some f) s).revoked = s.revoked ∧
    (handleDrop (some f) s).analysis = s.analysis ∧
    (handleDrop (some f) s).loading = s.loading ∧
    (handleDrop (some f) s).uploadProgress = s.uploadProgress ∧
    (handleDrop (some f) s).httpSent = s.httpSent ∧
    (handleDrop (some f) s).alertsShown = s.alertsShown := by
  simp [handleDrop, h]

/-- Witness for C8: dropping an `image/png` file on the fresh component. -/
theorem handleDrop_rejects_non_video_witness :
    (handleDrop (some pngFile) initState).videoFile = initState.videoFile ∧
    (handleDrop (some pngFile) initState).created = initState.created ∧
    (handleDrop (some pngFile) initState).alertsShown = initState.alertsShown := by
  obtain ⟨h1, _, h3, _, _, _, _, _, h9⟩ :=
    handleDrop_rejects_non_video initState pngFile (by decide)
  exact ⟨h1, h3, h9⟩

/-- C9: invoking `analyzeForm` with no file selected is a no-op: the state is
unchanged — in particular no HTTP request is counted, the loading flag and
progress value keep their values, and any stored result is kept. -/
theorem analyzeForm_noop_without_file (s : State) (o : Outcome)
    (h : s.videoFile = none) :
    analyzeForm s o = s := by
  simp [analyzeForm, h]

/-- Witness for C9 on the fresh component with a failing backend. -/
theorem analyzeForm_noop_without_file_witness :
    analyzeForm initState Outcome.failure = initState :=
  analyzeForm_noop_without_file initState Outcome.failure rfl

/-- C10: a rendered correction whose severity is neither `critical` nor
`warning` gets the blue info badge class — including unrecognized severities —
while an unrecognized severity (not `info` either) simultaneously gets the
neutral default class on its container. -/
theorem badge_severity_fallback_info (c : Correction)
    (h1 : c.severity ≠ "critical") (h2 : c.severity ≠ "warning") :
    (renderCorrection c).badgeClass = "bg-blue-200 text-blue-800" ∧
    (c.severity ≠ "info" →
      (renderCorrection c).containerClass
        = "bg-gray-100 border-gray-400 text-gray-700") := by
  constructor
  · simp [renderCorrection, severityBadgeClass, h1, h2]
  · intro h3
    simp [renderCorrection, getSeverityColor, h1, h2, h3]

/-- Witness for C10 at severity `banana`. -/
theorem badge_severity_fallback_info_witness :
    (renderCorrection bananaCorrection).badgeClass = "bg-blue-200 text-blue-800" ∧
    (renderCorrection bananaCorrection).containerClass
      = "bg-gray-100 border-gray-400 text-gray-700" :=
  ⟨(badge_severity_fallback_info bananaCorrection (by decide) (by decide)).1,
   (badge_severity_fallback_info bananaCorrection (by decide) (by decide)).2
     (by decide)⟩

/-- C1: with a file selected, however the request settles, the `finally`
block clears the loading flag and resets the progress value; exactly one
request is issued per attempt (no automatic retry), and on failure exactly
one alert is raised while the stored result is left unchanged (no partial
result is published); on success no alert is raised. -/
theorem analyzeForm_settles_and_fails_atomically (s : State) (f : File)
    (o : Outcome) (h : s.videoFile = some f) :
    (analyzeForm s o).loading = false ∧
    (analyzeForm s o).uploadProgress = 0 ∧
    (analyzeForm s o).httpSent = s.httpSent + 1 ∧
    (o = Outcome.failure →
      (analyzeForm s o).alertsShown = s.alertsShown + 1 ∧
      (analyzeForm s o).analysis = s.analysis) ∧
    (∀ r : AnalysisResult, o = Outcome.success r →
      (analyzeForm s o).alertsShown = s.alertsShown) := by
  cases o <;> simp [analyzeForm, analyzeFormStart, analyzeFormSettle, h]

/-- Witness for C1: a failing attempt from a state with a selected file. -/
theorem analyzeForm_settles_and_fails_atomically_witness :
    (analyzeForm demoLoadedState Outcome.failure).loading = false ∧
    (analyzeForm demoLoadedState Outcome.failure).uploadProgress = 0 ∧
    (analyzeForm demoLoadedState Outcome.failure).httpSent
      = demoLoadedState.httpSent + 1 ∧
    (analyzeForm demoLoadedState Outcome.failure).alertsShown
      = demoLoadedState.alertsShown + 1 ∧
    (analyzeForm demoLoadedState Outcome.failure).analysis
      = demoLoadedState.analysis := by
  obtain ⟨h1, h2, h3, h4, _⟩ :=
    analyzeForm_settles_and_fails_atomically demoLoadedState demoFile
      Outcome.failure rfl
  exact ⟨h1, h2, h3, (h4 rfl).1, (h4 rfl).2⟩

/-- `Math.round(a / b)` for `b > 0` equals the floor quotient, plus one
exactly when the remainder is at least half of `b`. -/
theorem jsRound_eq (a b : Nat) (hb : 0 < b) :
    jsRound a b = a / b + (if 2 * (a % b) < b then 0 else 1) := by
  have ha : a = b * (a / b) + a % b := (Nat.div_add_mod a b).symm
  have hlt : a % b < b := Nat.mod_lt a hb
  have h2b : 0 < 2 * b := by omega
  have harg : 2 * a + b = 2 * b * (a / b) + (2 * (a % b) + b) := by
    conv_lhs => rw [ha]
    ring
  unfold jsRound
  rw [harg, Nat.mul_add_div h2b]
  congr 1
  by_cases hc : 2 * (a % b) < b
  · rw [if_pos hc]
    exact Nat.div_eq_of_lt (by omega)
  · rw [if_neg hc]
    have e : 2 * (a % b) + b = (2 * (a % b) + b - 2 * b) + 2 * b * 1 := by
      omega
    rw [e, Nat.add_mul_div_left _ _ h2b, Nat.div_eq_of_lt (by omega)]

/-- C2 counterexample: at `loaded = 2`, `total = 3` the code reports
`Math.round(200 / 3) = 67`, not `floor(200 / 3) = 66`. -/
theorem uploadProgress_not_floor_counterexample :
    ¬ ((onUploadProgress 2 3 initState).uploadProgress = 2 * 100 / 3) := by
  decide

/-- C2 amended: every reported progress value is `loaded * 100 / total`
rounded to the nearest integer (halves up): it is the floor quotient or that
plus one, and equals the floor exactly when the remainder is below half of
`total`. -/
theorem uploadProgress_rounds_to_nearest (loaded total : Nat) (s : State)
    (h : 0 < total) :
    ((onUploadProgress loaded total s).uploadProgress
        = loaded * 100 / total ∨
     (onUploadProgress loaded total s).uploadProgress
        = loaded * 100 / total + 1) ∧
    ((onUploadProgress loaded total s).uploadProgress
        = loaded * 100 / total ↔
      2 * (loaded * 100 % total) < total) := by
  have key : (onUploadProgress loaded total s).uploadProgress
      = loaded * 100 / total
        + (if 2 * (loaded * 100 % total) < total then 0 else 1) := by
    show jsRound (loaded * 100) total = _
    exact jsRound_eq (loaded * 100) total h
  rw [key]
  by_cases hc : 2 * (loaded * 100 % total) < total <;> simp [hc]

/-- Witness for C2 amended at the counterexample counters. -/
theorem uploadProgress_rounds_to_nearest_witness :
    (onUploadProgress 2 3 initState).uploadProgress = 2 * 100 / 3 ∨
    (onUploadProgress 2 3 initState).uploadProgress = 2 * 100 / 3 + 1 :=
  (uploadProgress_rounds_to_nearest 2 3 initState (by decide)).1

/-- C3 counterexample: starting a second request from the state left by a
successful one keeps the previous stored result — the in-flight state does
not have `analysis` cleared. -/
theorem analysis_retained_in_flight_counterexample :
    (analyzeFormStart
        (analyzeForm demoLoadedState (Outcome.success demoResult))).analysis
      ≠ none := by
  simp [analyzeForm, analyzeFormStart, analyzeFormSettle, demoLoadedState]

/-- C3 amended: `analysis` is absent before the first request; it is written
only by a successful settlement, which replaces it wholesale; request start
and progress updates leave it unchanged, so during an in-flight request it
retains its prior value rather than being cleared. -/
theorem analysis_lifecycle :
    initState.analysis = none ∧
    (∀ s : State, (analyzeFormStart s).analysis = s.analysis) ∧
    (∀ (s : State) (loaded total : Nat),
      (onUploadProgress loaded total s).analysis = s.analysis) ∧
    (∀ (s : State) (f : File) (r : AnalysisResult), s.videoFile = some f →
      (analyzeForm s (Outcome.success r)).analysis = some r) ∧
    (∀ (s : State) (o : Outcome),
      (analyzeForm s o).analysis = s.analysis ∨
      ∃ r : AnalysisResult, o = Outcome.success r ∧
        (analyzeForm s o).analysis = some r) := by
  refine ⟨rfl, fun s => rfl, fun s loaded total => rfl,
    fun s f r h => ?_, fun s o => ?_⟩
  · simp [analyzeForm, h, analyzeFormStart, analyzeFormSettle]
  · cases hv : s.videoFile with
    | none => exact Or.inl (by simp [analyzeForm, hv])
    | some f =>
        cases o with
        | success r =>
            exact Or.inr ⟨r, rfl,
              by simp [analyzeForm, hv, analyzeFormStart, analyzeFormSettle]⟩
        | failure =>
            exact Or.inl
              (by simp [analyzeForm, hv, analyzeFormStart, analyzeFormSettle])

/-- Witness for C3 amended: a successful request stores its payload. -/
theorem analysis_lifecycle_witness :
    (analyzeForm demoLoadedState (Outcome.success demoResult)).analysis
      = some demoResult :=
  analysis_lifecycle.2.2.2.1 demoLoadedState demoFile demoResult rfl

/-- C4 counterexample: the spec's end-to-end payload with an empty
`detailed_breakdown` mapping still renders the breakdown section — the guard
is truthiness only, and an empty object is truthy. -/
theorem empty_breakdown_still_rendered_counterexample :
    (renderReport demoResult).breakdownSection ≠ none := by
  simp [renderReport, demoResult]

/-- C4 amended: the five report sections are rendered independently, each
governed only by its own field; `whats_right`, `corrections_needed` and
`improvement_tips` are suppressed exactly when absent or empty, `overlay_url`
exactly when absent or the empty string, but `detailed_breakdown` only when
absent — an empty mapping still renders its section.  The overall score is
always rendered. -/
theorem renderReport_sections (r : AnalysisResult) :
    ((renderReport r).whatsRightSection = none ↔
      r.whats_right = none ∨ r.whats_right = some []) ∧
    ((renderReport r).correctionsSection = none ↔
      r.corrections_needed = none ∨ r.corrections_needed = some []) ∧
    ((renderReport r).breakdownSection = none ↔
      r.detailed_breakdown = none) ∧
    ((renderReport r).tipsSection = none ↔
      r.improvement_tips = none ∨ r.improvement_tips = some []) ∧
    ((renderReport r).overlaySection = none ↔
      r.overlay_url = none ∨ r.overlay_url = some "") ∧
    (renderReport r).overallScore = r.overall_score ∧
    (∀ q : AnalysisResult, r.whats_right = q.whats_right →
      (renderReport r).whatsRightSection = (renderReport q).whatsRightSection) ∧
    (∀ q : AnalysisResult, r.corrections_needed = q.corrections_needed →
      (renderReport r).correctionsSection
        = (renderReport q).correctionsSection) ∧
    (∀ q : AnalysisResult, r.detailed_breakdown = q.detailed_breakdown →
      (renderReport r).breakdownSection = (renderReport q).breakdownSection) ∧
    (∀ q : AnalysisResult, r.improvement_tips = q.improvement_tips →
      (renderReport r).tipsSection = (renderReport q).tipsSection) ∧
    (∀ q : AnalysisResult, r.overlay_url = q.overlay_url →
      (renderReport r).overlaySection = (renderReport q).overlaySection) := by
  refine ⟨?_, ?_, ?_, ?_, ?_, rfl,
    fun q h => by simp [renderReport, h], fun q h => by simp [renderReport, h],
    fun q h => by simp [renderReport, h], fun q h => by simp [renderReport, h],
    fun q h => by simp [renderReport, h]⟩
  · cases hw : r.whats_right with
    | none => simp [renderReport, hw]
    | some l => cases l <;> simp [renderReport, hw]
  · cases hw : r.corrections_needed with
    | none => simp [renderReport, hw]
    | some l => cases l <;> simp [renderReport, hw]
  · cases hw : r.detailed_breakdown with
    | none => simp [renderReport, hw]
    | some m => simp [renderReport, hw]
  · cases hw : r.improvement_tips with
    | none => simp [renderReport, hw]
    | some l => cases l <;> simp [renderReport, hw]
  · cases hw : r.overlay_url with
    | none => simp [renderReport, hw]
    | some u =>
        by_cases hu : u = "" <;> simp [renderReport, hw, hu]

/-- Witness for C4 amended: the example payload has no overlay, so only the
overlay section is suppressed. -/
theorem renderReport_sections_witness :
    (renderReport demoResult).overlaySection = none :=
  (renderReport_sections demoResult).2.2.2.2.1.mpr (Or.inl rfl)

/-- Number of live object-URL handles tracked by the ref cell. -/
def liveHandles (s : State) : Nat :=
  match s.videoUrlRef with
  | some _ => 1
  | none => 0

/-- The handle-accounting invariant: every handle ever created has been
revoked except the one (if any) the ref cell still holds. -/
def HandleInv (s : State) : Prop :=
  s.created = s.revoked + liveHandles s

theorem handleInv_init : HandleInv initState := rfl

theorem handleInv_step (s : State) (op : Op) (h : HandleInv s) :
    HandleInv (step s op) := by
  cases op with
  | dragEnter => simpa [step, handleDragEnter, HandleInv, liveHandles] using h
  | dragLeave => simpa [step, handleDragLeave, HandleInv, liveHandles] using h
  | dragOver => exact h
  | drop f =>
      cases f with
      | none => simpa [step, handleDrop, HandleInv, liveHandles] using h
      | some file =>
          by_cases hv : strStartsWith file.fileType ("video/")
          · cases hr : s.videoUrlRef with
            | none =>
                have h0 : s.created = s.revoked := by
                  simpa [HandleInv, liveHandles, hr] using h
                simp [step, handleDrop, hv, hr, HandleInv, liveHandles,
                      revokeObjectURL, createObjectURL, h0]
            | some u =>
                have h1 : s.created = s.revoked + 1 := by
                  simpa [HandleInv, liveHandles, hr] using h
                simp [step, handleDrop, hv, hr, HandleInv, liveHandles,
                      revokeObjectURL, createObjectURL, h1]
          · simpa [step, handleDrop, hv, HandleInv, liveHandles] using h
  | pick f =>
      cases f with
      | none => simpa [step, handleFileSelect, HandleInv, liveHandles] using h
      | some file =>
          cases hr : s.videoUrlRef with
          | none =>
              have h0 : s.created = s.revoked := by
                simpa [HandleInv, liveHandles, hr] using h
              simp [step, handleFileSelect, hr, HandleInv, liveHandles,
                    revokeObjectURL, createObjectURL, h0]
          | some u =>
              have h1 : s.created = s.revoked + 1 := by
                simpa [HandleInv, liveHandles, hr] using h
              simp [step, handleFileSelect, hr, HandleInv, liveHandles,
                    revokeObjectURL, createObjectURL, h1]
  | previewEffect =>
      cases hf : s.videoFile with
      | none => simpa [step, videoFileEffect, hf, HandleInv, liveHandles] using h
      | some file =>
          cases hr : s.videoUrlRef with
          | none =>
              have h0 : s.created = s.revoked := by
                simpa [HandleInv, liveHandles, hr] using h
              simp [step, videoFileEffect, hf, hr, HandleInv, liveHandles,
                    revokeObjectURL, createObjectURL, h0]
          | some u =>
              have h1 : s.created = s.revoked + 1 := by
                simpa [HandleInv, liveHandles, hr] using h
              simp [step, videoFileEffect, hf, hr, HandleInv, liveHandles,
                    revokeObjectURL, createObjectURL, h1]
  | settle o =>
      cases hf : s.videoFile with
      | none => simpa [step, analyzeForm, hf, HandleInv, liveHandles] using h
      | some file =>
          cases o <;>
            simpa [step, analyzeForm, hf, analyzeFormStart, analyzeFormSettle,
                   HandleInv, liveHandles] using h
  | progress loaded total =>
      simpa [step, onUploadProgress, HandleInv, liveHandles] using h
  | unmount =>
      cases hr : s.videoUrlRef with
      | none => simpa [step, unmountCleanup, hr, HandleInv, liveHandles] using h
      | some u =>
          have h1 : s.created = s.revoked + 1 := by
            simpa [HandleInv, liveHandles, hr] using h
          simp [step, unmountCleanup, hr, HandleInv, liveHandles,
                revokeObjectURL, h1]

theorem handleInv_foldl (ops : List Op) :
    ∀ s : State, HandleInv s → HandleInv (ops.foldl step s) := by
  induction ops with
  | nil => intro s h; exact h
  | cons op rest ih =>
      intro s h
      exact ih (step s op) (handleInv_step s op h)

theorem handleInv_run (ops : List Op) : HandleInv (run ops) :=
  handleInv_foldl ops initState handleInv_init

theorem unmountCleanup_clears_ref (s : State) :
    (unmountCleanup s).videoUrlRef = none := by
  cases hr : s.videoUrlRef <;> simp [unmountCleanup, hr]

/-- C7: after any sequence of events from mount, handle creations minus
revocations never exceed one (and never go negative); a file selection always
revokes the prior live handle, if any, and creates exactly one new handle;
and the unmount cleanup leaves no live handle. -/
theorem preview_handle_invariant (ops : List Op) :
    (run ops).revoked ≤ (run ops).created ∧
    (run ops).created ≤ (run ops).revoked + 1 ∧
    (∀ file : File,
      (step (run ops) (Op.pick (some file))).created
        = (run ops).created + 1 ∧
      (step (run ops) (Op.pick (some file))).revoked
        = (run ops).revoked + liveHandles (run ops)) ∧
    (step (run ops) Op.unmount).created = (step (run ops) Op.unmount).revoked
      := by
  have h := handleInv_run ops
  have hu := handleInv_step (run ops) Op.unmount h
  refine ⟨?_, ?_, fun file => ?_, ?_⟩
  · unfold HandleInv at h
    cases hr : (run ops).videoUrlRef <;> simp [liveHandles, hr] at h <;> omega
  · unfold HandleInv at h
    cases hr : (run ops).videoUrlRef <;> simp [liveHandles, hr] at h <;> omega
  · cases hr : (run ops).videoUrlRef with
    | none =>
        constructor <;>
          simp [step, handleFileSelect, hr, createObjectURL, revokeObjectURL,
                liveHandles]
    | some u =>
        constructor <;>
          simp [step, handleFileSelect, hr, createObjectURL, revokeObjectURL,
                liveHandles]
  · have hz : liveHandles (step (run ops) Op.unmount) = 0 := by
      unfold liveHandles
      rw [show (step (run ops) Op.unmount).videoUrlRef = none from
            unmountCleanup_clears_ref (run ops)]
    unfold HandleInv at hu
    omega

end ExerciseApp
